import Mathlib

/-!
A shallow embedding of the protocol core of `meshtastic/__init__.py`
(host-side client for Meshtastic mesh radios): the byte-stream framing
state machine of `StreamInterface.__reader`, the session / node-registry
logic of `MeshInterface._handleFromRadio` and friends, the send path
(`sendPacket` / `sendData`), and the outbound frame writer
`StreamInterface._sendToRadio`.  Bytes are modelled as `Nat` (inputs of
interest are < 256; where overflow matters the source masks with `& 0xff`,
which is carried over literally).
-/

set_option maxRecDepth 8000

namespace Meshtastic

/-- Framing constant `START1 = 0x94` (first magic byte). -/
def START1 : Nat := 0x94

/-- Framing constant `START2 = 0xc3` (second magic byte). -/
def START2 : Nat := 0xc3

/-- Framing constant `HEADER_LEN = 4`. -/
def HEADER_LEN : Nat := 4

/-- Payload bound constant `MAX_TO_FROM_RADIO_SIZE = 512`. -/
def MAX_TO_FROM_RADIO_SIZE : Nat := 512

/-- `BROADCAST_ADDR = "all"`, the special destination ID meaning broadcast. -/
def BROADCAST_ADDR : String := "all"

/-- `BROADCAST_NUM = 255`, the numeric broadcast address. -/
def BROADCAST_NUM : Nat := 255

/-- `MY_CONFIG_ID = 42`, the fixed config-request nonce. -/
def MY_CONFIG_ID : Nat := 42

/-- State of the reader thread `StreamInterface.__reader`:
`rxBuf` is `self._rxBuf` (the accumulation buffer); `rfBuf` is the
attribute `self.rfBuf` that lines 308 and 315 of the source assign to
(it is written there and never read anywhere — we carry it so that those
assignments are modelled exactly as written); `debugLog` records the
bytes forwarded to the diagnostic sink `self.debugOut` (modelled as
always attached; the source guards on `debugOut != None`). -/
structure ReaderState where
  rxBuf : List Nat
  rfBuf : List Nat
  debugLog : List Nat
  deriving Repr, DecidableEq

/-- The initial reader state: `self._rxBuf = bytes()` in the constructor
(`self.rfBuf` does not exist until first assigned; never read, so we
start it empty). -/
def initReader : ReaderState := ⟨[], [], []⟩

/-- `packetlen = (self._rxBuf[2] << 8) + self._rxBuf[3]` — the big-endian
length read from header bytes 2 and 3 (the buffer has ≥ 5 bytes wherever
the source evaluates this, so the default of `getD` is never taken). -/
def packetLen (buf : List Nat) : Nat :=
  ((buf.getD 2 0) <<< 8) + buf.getD 3 0

/-- One iteration of the body of `StreamInterface.__reader` for a single
received byte `c`: `ptr = len(self._rxBuf)` before the byte is appended;
the byte is appended unconditionally; then the `ptr`-dispatch runs.
Returns the new state together with the payload handed to
`_handleFromRadio`, if this byte completed a frame.  Note the two
`self.rfBuf = empty` assignments of the source (START2 mismatch, and
oversized length at `ptr == HEADER_LEN`) touch `rfBuf`, not the real
buffer `rxBuf` — reproduced literally. -/
def readerStep (st : ReaderState) (c : Nat) : ReaderState × Option (List Nat) :=
  let ptr := st.rxBuf.length
  let rx := st.rxBuf ++ [c]
  if ptr = 0 then
    -- looking for START1; mismatch goes to the debug sink
    if c ≠ START1 then
      ({ st with rxBuf := [], debugLog := st.debugLog ++ [c] }, none)
    else
      ({ st with rxBuf := rx }, none)
  else if ptr = 1 then
    -- looking for START2; mismatch assigns self.rfBuf (not self._rxBuf)
    if c ≠ START2 then
      ({ st with rxBuf := rx, rfBuf := [] }, none)
    else
      ({ st with rxBuf := rx }, none)
  else if HEADER_LEN ≤ ptr then
    let plen := packetLen rx
    -- at ptr == HEADER_LEN the length is validated; the reset on
    -- out-of-bounds again assigns self.rfBuf, not self._rxBuf
    let st1 : ReaderState :=
      if ptr = HEADER_LEN ∧ MAX_TO_FROM_RADIO_SIZE < plen then
        { st with rxBuf := rx, rfBuf := [] }
      else
        { st with rxBuf := rx }
    if st1.rxBuf.length ≠ 0 ∧ ptr + 1 = plen + HEADER_LEN then
      ({ st1 with rxBuf := [] }, some (rx.drop HEADER_LEN))
    else
      (st1, none)
  else
    -- 1 < ptr < HEADER_LEN: no branch applies, the byte just accumulates
    ({ st with rxBuf := rx }, none)

/-- Run the reader over a list of input bytes, collecting the payloads
handed to the decode stage in order. -/
def readerRun (st : ReaderState) (input : List Nat) : ReaderState × List (List Nat) :=
  match input with
  | [] => (st, [])
  | c :: rest =>
    let s1 := readerStep st c
    let s2 := readerRun s1.1 rest
    (s2.1, s1.2.toList ++ s2.2)

/-- C1.  The claim says an oversized claimed length (L > 512) detected at
`ptr == 4` makes the reader discard the buffer and resynchronize at the
next byte.  The code instead assigns the never-read attribute `rfBuf`
(line 315, a slip contradicting its own comment "length ws out out
bounds, restart"): after header `94 C3 02 01` (L = 513) the accumulation
buffer still holds all four bytes, and feeding 513 further payload bytes
makes the reader hand the full 513-byte payload to the decode stage
instead of having discarded the frame. -/
theorem c1_oversize_frame_not_discarded :
    (readerRun initReader [0x94, 0xc3, 0x02, 0x01]).1.rxBuf = [0x94, 0xc3, 0x02, 0x01] ∧
    (readerRun initReader [0x94, 0xc3, 0x02, 0x01]).1.rfBuf = [] ∧
    (readerRun initReader ([0x94, 0xc3, 0x02, 0x01] ++ List.replicate 513 0x07)).2 =
      [List.replicate 513 0x07] := by
  refine ⟨by decide, by decide, by decide⟩

/-- C2.  The claim says a START2 mismatch at `ptr == 1` resets the
accumulation buffer to empty and returns to state 0 with the byte
dropped.  The code instead assigns the never-read attribute `rfBuf`
(line 308, contradicting its comment "failed to find start2"): after
`94 00` the buffer still holds both bytes (and nothing went to the
diagnostic sink), and the following bytes `00 01 ab` are then
misinterpreted as the rest of a header plus a 1-byte payload, which is
handed to the decode stage. -/
theorem c2_start2_mismatch_keeps_buffer :
    (readerRun initReader [0x94, 0x00]).1.rxBuf = [0x94, 0x00] ∧
    (readerRun initReader [0x94, 0x00]).1.rfBuf = [] ∧
    (readerRun initReader [0x94, 0x00]).1.debugLog = [] ∧
    (readerRun initReader [0x94, 0x00, 0x00, 0x01, 0xab]).2 = [[0xab]] := by
  refine ⟨by decide, by decide, by decide, by decide⟩

/-- C3.  The claim says the 4-byte stream `94 C3 00 00` (valid header,
zero-length payload) produces exactly one decode attempt on an empty
payload and a buffer reset.  In the code the completion test
`ptr + 1 == packetlen + HEADER_LEN` sits inside the `ptr >= HEADER_LEN`
branch, and the fourth byte of a zero-length frame arrives with
`ptr == 3`: no decode attempt ever happens, the header stays in the
buffer, and later bytes can never complete it
(`ptr + 1 > 4 = packetlen + HEADER_LEN` from then on). -/
theorem c3_zero_length_frame_never_decoded :
    (readerRun initReader [0x94, 0xc3, 0x00, 0x00]).2 = [] ∧
    (readerRun initReader [0x94, 0xc3, 0x00, 0x00]).1.rxBuf = [0x94, 0xc3, 0x00, 0x00] ∧
    (readerRun initReader [0x94, 0xc3, 0x00, 0x00, 0x05, 0x06, 0x07]).2 = [] := by
  refine ⟨by decide, by decide, by decide⟩

/-- C4 counterexample.  After the stream `94 C3 00 00` the accumulation
buffer has length exactly `HEADER_LEN + L` for the big-endian length
`L = 0` read from its bytes 2–3, yet no payload was emitted and the
buffer was not reset — refuting the claim "for every accumulated frame
whose buffer length reaches exactly 4 + L, the reader emits
buffer[4:4+L] and resets" at the concrete input `L = 0`. -/
theorem c4_counterexample :
    (readerRun initReader [0x94, 0xc3, 0x00, 0x00]).1.rxBuf.length =
      HEADER_LEN + packetLen (readerRun initReader [0x94, 0xc3, 0x00, 0x00]).1.rxBuf ∧
    (readerRun initReader [0x94, 0xc3, 0x00, 0x00]).2 = [] ∧
    (readerRun initReader [0x94, 0xc3, 0x00, 0x00]).1.rxBuf ≠ [] := by
  refine ⟨by decide, by decide, by decide⟩

/-- `mesh_pb2.Data.OPAQUE` (proto enum value 0), the default `dataType`
of `sendData`. -/
def DATA_OPAQUE : Nat := 0

/-- `mesh_pb2.Data.CLEAR_TEXT` (proto enum value 1), used by `sendText`. -/
def DATA_CLEAR_TEXT : Nat := 1

/-- `mesh_pb2.MyNodeInfo`: read-only information about the local radio;
the interface only stores it, so one representative field suffices. -/
structure MyNodeInfo where
  myNodeNum : Nat
  deriving Repr, DecidableEq

/-- `mesh_pb2.RadioConfig`: the radio-settings snapshot; stored opaquely
by the interface, so one representative field suffices. -/
structure RadioConfig where
  preferences : Nat
  deriving Repr, DecidableEq

/-- `mesh_pb2.Position` (location carried by node info / packets). -/
structure Position where
  latitude : Int
  longitude : Int
  deriving Repr, DecidableEq

/-- `mesh_pb2.User`: user profile of a node; `id` is the string user ID
used as the key of the `nodes` dict. -/
structure User where
  id : String
  longName : String
  deriving Repr, DecidableEq

/-- `mesh_pb2.NodeInfo`: a node record, keyed by `num` in `_nodesByNum`
and by `user.id` in `nodes`. -/
structure NodeInfo where
  num : Nat
  user : User
  position : Option Position
  deriving Repr, DecidableEq

/-- `mesh_pb2.Data`: an application data payload with declared type
(`typ`) and raw bytes. -/
structure DataMessage where
  typ : Nat
  payload : List Nat
  deriving Repr, DecidableEq

/-- `mesh_pb2.SubPacket`: the payload of a MeshPacket.  The source probes
it with three independent `HasField` tests (position / user / data), so
we model the three fields as options. -/
structure SubPacket where
  position : Option Position
  user : Option User
  data : Option DataMessage
  deriving Repr, DecidableEq

/-- `mesh_pb2.MeshPacket`: an application packet; `fromNode` / `toNode`
are the wire fields `from` / `to` (renamed: `from` is a keyword). -/
structure MeshPacket where
  fromNode : Nat
  toNode : Nat
  payload : SubPacket
  deriving Repr, DecidableEq

/-- `mesh_pb2.FromRadio`: a decoded radio-to-host message.  On the wire
these alternatives live in a proto `oneof`, so exactly one is populated
(`unset` is the empty message, reaching the source's final
`logging.warn` branch). -/
inductive FromRadio where
  | myInfo (i : MyNodeInfo)
  | radio (r : RadioConfig)
  | nodeInfo (n : NodeInfo)
  | configComplete (id : Nat)
  | packet (p : MeshPacket)
  | rebooted
  | unset
  deriving Repr, DecidableEq

/-- Proto accessor `fromRadio.config_complete_id`: the scalar field reads
as its value when populated and as the proto3 default 0 otherwise. -/
def FromRadio.configCompleteId : FromRadio → Nat
  | .configComplete i => i
  | _ => 0

/-- `mesh_pb2.ToRadio`: a host-to-radio message handed to `_sendToRadio`
(variants actually built by the source: `packet`, `set_radio`,
`want_config_id`). -/
inductive ToRadio where
  | packet (p : MeshPacket)
  | setRadio (r : RadioConfig)
  | wantConfigId (i : Nat)
  deriving Repr, DecidableEq

/-- The dictionary `pub.sendMessage` publishes for a received packet:
the packet plus the `fromId` / `toId` fields added by
`_handlePacketFromRadio` (null when `_nodeNumToId` misses). -/
structure PacketEnv where
  packet : MeshPacket
  fromId : Option String
  toId : Option String
  deriving Repr, DecidableEq

/-- An observable PubSub publication made by the interface. -/
inductive Event where
  | connectionEstablished
  | connectionLost
  | received (topic : String) (env : PacketEnv)
  deriving Repr, DecidableEq

/-- Association-list read modelling a Python dict lookup
(`d[k]`, insertion-ordered). -/
def lookupA {α β : Type} [DecidableEq α] : List (α × β) → α → Option β
  | [], _ => none
  | (k, v) :: t, a => if k = a then some v else lookupA t a

/-- Association-list write modelling a Python dict assignment
(`d[k] = v`): replace in place if the key exists, else append. -/
def setA {α β : Type} [DecidableEq α] : List (α × β) → α → β → List (α × β)
  | [], k, v => [(k, v)]
  | (k1, v1) :: t, k, v =>
    if k1 = k then (k, v) :: t else (k1, v1) :: setA t k v

/-- The mutable state of a `MeshInterface`: `myInfo`, `radioConfig`, the
two node indices (`nodes` keyed by string user ID, `_nodesByNum` keyed
by node number), the `isConnected` flag, plus two observation logs —
`events` for every `pub.sendMessage` publication and `sent` for every
`ToRadio` handed to `_sendToRadio` (the transport writes). -/
structure MeshState where
  myInfo : Option MyNodeInfo
  radioConfig : Option RadioConfig
  nodes : List (String × NodeInfo)
  nodesByNum : List (Nat × NodeInfo)
  isConnected : Bool
  events : List Event
  sent : List ToRadio
  deriving Repr, DecidableEq

/-- `MeshInterface._connected`: set `isConnected = True` and publish
"meshtastic.connection.established". -/
def connected (st : MeshState) : MeshState :=
  { st with isConnected := true,
            events := st.events ++ [Event.connectionEstablished] }

/-- `MeshInterface._disconnected`: set `isConnected = False` and publish
"meshtastic.connection.lost". -/
def disconnected (st : MeshState) : MeshState :=
  { st with isConnected := false,
            events := st.events ++ [Event.connectionLost] }

/-- `MeshInterface._startConfig`: clear `myInfo`, both node indices and
`radioConfig`, then send a `ToRadio` with
`want_config_id = MY_CONFIG_ID`. -/
def startConfig (st : MeshState) : MeshState :=
  { st with myInfo := none, nodes := [], nodesByNum := [],
            radioConfig := none,
            sent := st.sent ++ [ToRadio.wantConfigId MY_CONFIG_ID] }

/-- State after `MeshInterface.__init__`: `isConnected = False`, then
`_startConfig()` runs. -/
def initMesh : MeshState :=
  startConfig ⟨none, none, [], [], false, [], []⟩

/-- `MeshInterface._nodeNumToId`: broadcast number maps to the broadcast
address; otherwise look the number up in `_nodesByNum` and return the
record's `user.id`; a miss is caught (`except` → log → `return None`). -/
def nodeNumToId (st : MeshState) (num : Nat) : Option String :=
  if num = BROADCAST_NUM then some BROADCAST_ADDR
  else
    match lookupA st.nodesByNum num with
    | some n => some n.user.id
    | none => none

/-- The topic chosen by `_handlePacketFromRadio`: starts as `None`, then
three independent `if HasField` tests each overwrite it. -/
def selectTopic (p : MeshPacket) : Option String :=
  let t : Option String := none
  let t := if p.payload.position.isSome then some "meshtastic.receive.position" else t
  let t := if p.payload.user.isSome then some "meshtastic.receive.user" else t
  if p.payload.data.isSome then some "meshtastic.receive.data" else t

/-- `pub.sendMessage(topic, ...)` for a received packet.  The pubsub
library requires the topic name to be a string: called with `None`
(no variant matched) it raises, modelled as `Except.error`; otherwise
the publication is appended to the event log. -/
def pubSendPacket (events : List Event) (topic : Option String)
    (env : PacketEnv) : Except String (List Event) :=
  match topic with
  | none => .error "pub.sendMessage: topic name must be a string, got None"
  | some t => .ok (events ++ [Event.received t env])

/-- `MeshInterface._handlePacketFromRadio`: build the packet dictionary
with `fromId` / `toId` resolved through `_nodeNumToId`, select the topic
by the three `HasField` tests, and publish.  The only state mutation is
the publication itself; a raise from `pub.sendMessage` (topic `None`)
happens before anything was mutated. -/
def handlePacketFromRadio (st : MeshState) (p : MeshPacket) :
    Except String MeshState :=
  let env : PacketEnv :=
    { packet := p, fromId := nodeNumToId st p.fromNode,
      toId := nodeNumToId st p.toNode }
  match pubSendPacket st.events (selectTopic p) env with
  | .error e => .error e
  | .ok evs => .ok { st with events := evs }

/-- The `node_info` branch of `_handleFromRadio`:
`self._nodesByNum[node.num] = node; self.nodes[node.user.id] = node`.
No publication is made (the module docstring advertises a
"meshtastic.node.updated" topic, but no code publishes it). -/
def upsertNode (st : MeshState) (node : NodeInfo) : MeshState :=
  { st with nodesByNum := setA st.nodesByNum node.num node,
            nodes := setA st.nodes node.user.id node }

/-- `MeshInterface._handleFromRadio` on an already-decoded message.  The
source dispatches by an `elif` chain — `HasField("my_info")`,
`HasField("radio")`, `HasField("node_info")`,
`config_complete_id == MY_CONFIG_ID`, `HasField("packet")`, `rebooted`,
else `logging.warn`.  Since the message is a `oneof` (exactly one
variant populated) and `MY_CONFIG_ID = 42 ≠ 0` (the scalar default read
by every other variant), at most one test fires and this match
reproduces the chain exactly; a `configComplete` with a mismatched id
falls through every test to the warn branch, leaving state unchanged. -/
def handleFromRadio (st : MeshState) (fr : FromRadio) :
    Except String MeshState :=
  match fr with
  | .myInfo i => .ok { st with myInfo := some i }
  | .radio r => .ok { st with radioConfig := some r }
  | .nodeInfo n => .ok (upsertNode st n)
  | .configComplete i =>
    if i = MY_CONFIG_ID then .ok (connected st) else .ok st
  | .packet p => handlePacketFromRadio st p
  | .rebooted => .ok (startConfig (disconnected st))
  | .unset => .ok st

/-- A destination ID as accepted by `sendPacket`: Python passes either
an `int` node number or a string ID. -/
inductive Dest where
  | num (n : Nat)
  | str (s : String)
  deriving Repr, DecidableEq

/-- `MeshInterface.sendPacket`: resolve the destination — an `int` is
used directly, the broadcast address maps to the literal 255, any other
string is looked up in `self.nodes` (a dict miss raises `KeyError`,
modelled as `Except.error`, before `meshPacket.to` is set and before
`_sendToRadio` writes anything) — then set `to` and send. -/
def sendPacket (st : MeshState) (meshPacket : MeshPacket)
    (destinationId : Dest) : Except String MeshState :=
  let deliver : Nat → MeshState := fun nodeNum =>
    { st with sent := st.sent ++ [ToRadio.packet { meshPacket with toNode := nodeNum }] }
  match destinationId with
  | .num n => .ok (deliver n)
  | .str s =>
    if s = BROADCAST_ADDR then .ok (deliver 255)
    else
      match lookupA st.nodes s with
      | some node => .ok (deliver node.num)
      | none => .error "KeyError: unknown destination id"

/-- `MeshInterface.sendData`: wrap the bytes in a fresh `MeshPacket`
(`payload.data.payload = byteData`, `payload.data.typ = dataType`, other
fields at proto defaults) and call `sendPacket`. -/
def sendData (st : MeshState) (byteData : List Nat) (destinationId : Dest)
    (dataType : Nat) : Except String MeshState :=
  sendPacket st
    { fromNode := 0, toNode := 0,
      payload := { position := none, user := none,
                   data := some { typ := dataType, payload := byteData } } }
    destinationId

/-- `MeshInterface.sendText`: UTF-8 encode and send as `CLEAR_TEXT`
data. -/
def sendText (st : MeshState) (text : String) (destinationId : Dest) :
    Except String MeshState :=
  sendData st (text.toUTF8.toList.map (fun b => b.toNat)) destinationId
    DATA_CLEAR_TEXT

/-- The byte sequence `StreamInterface._sendToRadio` writes for an
encoded message `b`: `header = bytes([START1, START2,
(bufLen >> 8) & 0xff, bufLen & 0xff])`, then `b` itself; no size check
of any kind is performed. -/
def sendToRadioFrame (b : List Nat) : List Nat :=
  [START1, START2, (b.length >>> 8) &&& 0xff, b.length &&& 0xff] ++ b

/-- Combined state of the reader thread and the interface it feeds. -/
structure LinkState where
  reader : ReaderState
  mesh : MeshState
  deriving Repr, DecidableEq

/-- One byte of `StreamInterface.__reader` including the decode/dispatch
stage: on frame completion the payload goes through the external codec
(`FromRadio.ParseFromString`, the `decode` parameter) and
`_handleFromRadio`, inside `try/except` — any exception is logged and
swallowed, the loop continues.  In the source every raising path
(`ParseFromString`, the `None`-topic publish) raises before mutating the
interface, so on error the mesh state is simply kept. -/
def linkStep (decode : List Nat → Except String FromRadio)
    (st : LinkState) (c : Nat) : LinkState :=
  let s1 := readerStep st.reader c
  match s1.2 with
  | none => ⟨s1.1, st.mesh⟩
  | some payload =>
    match (decode payload).bind (fun fr => handleFromRadio st.mesh fr) with
    | .ok m => ⟨s1.1, m⟩
    | .error _ => ⟨s1.1, st.mesh⟩

/-- Helper: once at least a full header is accumulated (`ptr >= 4`) and
the current byte brings the buffer to exactly `packetlen + HEADER_LEN`
bytes, `readerStep` emits `buffer[HEADER_LEN:]` and clears the buffer.
(The oversize test cannot fire here: it requires `ptr = 4`, which with
the completion equation forces `packetlen = 1 ≤ 512`.) -/
theorem readerStep_complete (r : ReaderState) (c : Nat)
    (h4 : HEADER_LEN ≤ r.rxBuf.length)
    (hc : r.rxBuf.length + 1 = packetLen (r.rxBuf ++ [c]) + HEADER_LEN) :
    readerStep r c =
      ({ r with rxBuf := [] }, some ((r.rxBuf ++ [c]).drop HEADER_LEN)) := by
  have h4n : (4 : Nat) ≤ r.rxBuf.length := by simpa [HEADER_LEN] using h4
  have hcn : r.rxBuf.length + 1 = packetLen (r.rxBuf ++ [c]) + 4 := by
    simpa [HEADER_LEN] using hc
  have h0 : ¬ r.rxBuf.length = 0 := by omega
  have h1 : ¬ r.rxBuf.length = 1 := by omega
  have hover : ¬ (r.rxBuf.length = HEADER_LEN ∧
      MAX_TO_FROM_RADIO_SIZE < packetLen (r.rxBuf ++ [c])) := by
    simp only [HEADER_LEN, MAX_TO_FROM_RADIO_SIZE]
    rintro ⟨he, hl⟩
    omega
  have hfin : ({ r with rxBuf := r.rxBuf ++ [c] } : ReaderState).rxBuf.length ≠ 0 ∧
      r.rxBuf.length + 1 = packetLen (r.rxBuf ++ [c]) + HEADER_LEN := ⟨by simp, hc⟩
  simp only [readerStep]
  rw [if_neg h0, if_neg h1, if_pos h4, if_neg hover, if_pos hfin]

/-- Helper: `setA` (a Python dict assignment) is idempotent. -/
theorem setA_setA {α β : Type} [DecidableEq α] (l : List (α × β)) (k : α) (v : β) :
    setA (setA l k v) k v = setA l k v := by
  induction l with
  | nil => simp [setA]
  | cons hd t ih =>
    obtain ⟨k1, v1⟩ := hd
    by_cases h : k1 = k
    · simp [setA, h]
    · simp [setA, h, ih]

/-- Helper: a successful `_handlePacketFromRadio` only appends to the
event log; in particular it never changes `isConnected`. -/
theorem handlePacketFromRadio_ok_isConnected (st st2 : MeshState) (p : MeshPacket)
    (h : handlePacketFromRadio st p = .ok st2) :
    st2.isConnected = st.isConnected := by
  simp only [handlePacketFromRadio] at h
  cases hps : pubSendPacket st.events (selectTopic p)
      { packet := p, fromId := nodeNumToId st p.fromNode,
        toId := nodeNumToId st p.toNode } with
  | error e => rw [hps] at h; simp at h
  | ok evs =>
    rw [hps] at h
    injection h with h2
    rw [← h2]

/-- C4 (amended): for every frame whose claimed length L is at least 1
(equivalently, whose completion is detected with at least a full header
already accumulated — zero-length frames are never completed, see the
counterexample), when the buffer reaches exactly `HEADER_LEN + L` bytes
the reader emits `buffer[HEADER_LEN:]` to the decode stage and resets
the buffer to empty; and in the full loop the reset happens regardless
of the decode/handle outcome — a failing decode leaves the interface
state untouched and the loop continues (never fatal). -/
theorem c4_frame_complete_emits (r : ReaderState) (c : Nat)
    (decode : List Nat → Except String FromRadio) (m : MeshState)
    (h4 : HEADER_LEN ≤ r.rxBuf.length)
    (hc : r.rxBuf.length + 1 = packetLen (r.rxBuf ++ [c]) + HEADER_LEN) :
    readerStep r c =
      ({ r with rxBuf := [] }, some ((r.rxBuf ++ [c]).drop HEADER_LEN)) ∧
    (linkStep decode ⟨r, m⟩ c).reader.rxBuf = [] ∧
    (((decode ((r.rxBuf ++ [c]).drop HEADER_LEN)).bind
        (fun fr => handleFromRadio m fr)).isOk = false →
      linkStep decode ⟨r, m⟩ c = ⟨{ r with rxBuf := [] }, m⟩) := by
  have hstep := readerStep_complete r c h4 hc
  refine ⟨hstep, ?_, ?_⟩
  · cases hres : (decode ((r.rxBuf ++ [c]).drop HEADER_LEN)).bind
        (fun fr => handleFromRadio m fr) <;>
      simp [linkStep, hstep, hres]
  · intro hko
    cases hres : (decode ((r.rxBuf ++ [c]).drop HEADER_LEN)).bind
        (fun fr => handleFromRadio m fr) with
    | ok m2 => rw [hres] at hko; simp [Except.isOk, Except.toBool] at hko
    | error e => simp [linkStep, hstep, hres]

/-- Witness for `c4_frame_complete_emits` at the concrete frame
`94 C3 00 01 AB` (L = 1) with an always-failing decoder. -/
theorem c4_frame_complete_emits_witness :
    HEADER_LEN ≤ (⟨[0x94, 0xc3, 0x00, 0x01], [], []⟩ : ReaderState).rxBuf.length ∧
    (readerStep ⟨[0x94, 0xc3, 0x00, 0x01], [], []⟩ 0xab =
      (⟨[], [], []⟩, some [0xab]) ∧
    (linkStep (fun _ => .error "parse error")
        ⟨⟨[0x94, 0xc3, 0x00, 0x01], [], []⟩, initMesh⟩ 0xab).reader.rxBuf = [] ∧
    ((((fun (_ : List Nat) => (.error "parse error" : Except String FromRadio)) [0xab]).bind
        (fun fr => handleFromRadio initMesh fr)).isOk = false →
      linkStep (fun _ => .error "parse error")
          ⟨⟨[0x94, 0xc3, 0x00, 0x01], [], []⟩, initMesh⟩ 0xab =
        ⟨⟨[], [], []⟩, initMesh⟩)) :=
  ⟨by decide,
   c4_frame_complete_emits ⟨[0x94, 0xc3, 0x00, 0x01], [], []⟩ 0xab
     (fun _ => .error "parse error") initMesh (by decide) (by decide)⟩

/-- C5: the interface becomes connected (flag set, "connection
established" published) only through a message whose
`config_complete_id` equals `MY_CONFIG_ID = 42` — any single received
message that turns `isConnected` from `false` to `true` reads
`configCompleteId = MY_CONFIG_ID` and produces exactly `connected st` —
and a config-complete carrying any other id leaves the state entirely
unchanged. -/
theorem c5_ready_only_on_matching_config_complete :
    (∀ (st st2 : MeshState) (fr : FromRadio),
      handleFromRadio st fr = .ok st2 →
      st.isConnected = false →
      st2.isConnected = true →
      fr.configCompleteId = MY_CONFIG_ID ∧ st2 = connected st) ∧
    (∀ (st : MeshState) (i : Nat), i ≠ MY_CONFIG_ID →
      handleFromRadio st (FromRadio.configComplete i) = .ok st) := by
  constructor
  · intro st st2 fr hok hfalse htrue
    cases fr with
    | myInfo i =>
      exfalso
      simp only [handleFromRadio] at hok
      injection hok with h2
      rw [← h2] at htrue
      simp [hfalse] at htrue
    | radio rc =>
      exfalso
      simp only [handleFromRadio] at hok
      injection hok with h2
      rw [← h2] at htrue
      simp [hfalse] at htrue
    | nodeInfo n =>
      exfalso
      simp only [handleFromRadio] at hok
      injection hok with h2
      rw [← h2] at htrue
      simp [upsertNode, hfalse] at htrue
    | configComplete i =>
      simp only [handleFromRadio] at hok
      by_cases hi : i = MY_CONFIG_ID
      · rw [if_pos hi] at hok
        injection hok with h2
        exact ⟨hi, h2.symm⟩
      · exfalso
        rw [if_neg hi] at hok
        injection hok with h2
        rw [← h2] at htrue
        simp [hfalse] at htrue
    | packet p =>
      exfalso
      simp only [handleFromRadio] at hok
      have hcon := handlePacketFromRadio_ok_isConnected st st2 p hok
      rw [hcon] at htrue
      simp [hfalse] at htrue
    | rebooted =>
      exfalso
      simp only [handleFromRadio] at hok
      injection hok with h2
      rw [← h2] at htrue
      simp [startConfig, disconnected] at htrue
    | unset =>
      exfalso
      simp only [handleFromRadio] at hok
      injection hok with h2
      rw [← h2] at htrue
      simp [hfalse] at htrue
  · intro st i hi
    simp [handleFromRadio, hi]

/-- Witness for `c5_ready_only_on_matching_config_complete`: a matching
config-complete (id 42) from the freshly initialised state, and a
mismatched one (id 7) leaving it unchanged. -/
theorem c5_witness :
    (handleFromRadio initMesh (FromRadio.configComplete 42) =
        .ok (connected initMesh) ∧
      initMesh.isConnected = false ∧
      (connected initMesh).isConnected = true) ∧
    (FromRadio.configCompleteId (FromRadio.configComplete 42) = MY_CONFIG_ID ∧
      connected initMesh = connected initMesh) ∧
    ((7 : Nat) ≠ MY_CONFIG_ID ∧
      handleFromRadio initMesh (FromRadio.configComplete 7) = .ok initMesh) :=
  ⟨⟨rfl, rfl, rfl⟩,
   c5_ready_only_on_matching_config_complete.1 initMesh (connected initMesh)
     (FromRadio.configComplete 42) rfl rfl rfl,
   ⟨by decide,
    c5_ready_only_on_matching_config_complete.2 initMesh 7 (by decide)⟩⟩

/-- C6 counterexample: while the interface is already connected, another
config-complete with the matching id publishes a second
"connection established" event — `_connected` has no guard on
`isConnected`, so the event is not "exactly once per entry into Ready"
and duplicates are produced when the state being entered already
holds. -/
theorem c6_counterexample :
    (connected initMesh).isConnected = true ∧
    handleFromRadio (connected initMesh) (FromRadio.configComplete 42) =
      .ok (connected (connected initMesh)) ∧
    (connected (connected initMesh)).events =
      [Event.connectionEstablished, Event.connectionEstablished] :=
  ⟨rfl, rfl, rfl⟩

/-- C6 (amended): the events are published once per *trigger*, not once
per state entry — every received config-complete with the matching id
appends exactly one "connection established" event (even if already
connected), and every `rebooted` signal appends exactly one
"connection lost" event (even if already disconnected) and restarts
configuration. -/
theorem c6_event_per_trigger (st : MeshState) :
    handleFromRadio st (FromRadio.configComplete MY_CONFIG_ID) =
      .ok { st with isConnected := true,
                    events := st.events ++ [Event.connectionEstablished] } ∧
    handleFromRadio st FromRadio.rebooted =
      .ok { st with myInfo := none, radioConfig := none, nodes := [],
                    nodesByNum := [], isConnected := false,
                    events := st.events ++ [Event.connectionLost],
                    sent := st.sent ++ [ToRadio.wantConfigId MY_CONFIG_ID] } :=
  ⟨rfl, rfl⟩

/-- C7: the `node_info` branch writes the record under its numeric ID
and its string user ID (dict-assignment semantics), twice with the same
record is the same as once — but, contradicting the module docstring
that advertises a "meshtastic.node.updated" topic, no event whatsoever
is published (and nothing is sent): the claimed "node updated"
notification does not exist in the code. -/
theorem c7_upsert_idempotent_no_event (st : MeshState) (n : NodeInfo) :
    handleFromRadio st (FromRadio.nodeInfo n) = .ok (upsertNode st n) ∧
    (upsertNode st n).nodesByNum = setA st.nodesByNum n.num n ∧
    (upsertNode st n).nodes = setA st.nodes n.user.id n ∧
    (upsertNode st n).events = st.events ∧
    (upsertNode st n).sent = st.sent ∧
    upsertNode (upsertNode st n) n = upsertNode st n := by
  refine ⟨rfl, rfl, rfl, rfl, rfl, ?_⟩
  simp [upsertNode, setA_setA]

/-- C8: a string destination that is not the broadcast address and is
absent from the `nodes` registry makes `sendPacket` (and hence
`sendData`) abort with the dict-lookup failure before `meshPacket.to`
is assigned and before anything is handed to the transport: the result
is an error carrying no successor state, so no `ToRadio` is written and
the interface is unchanged. -/
theorem c8_unknown_destination_no_write (st : MeshState) (s : String)
    (mp : MeshPacket) (byteData : List Nat) (dataType : Nat)
    (hs : s ≠ BROADCAST_ADDR)
    (habs : lookupA st.nodes s = none) :
    sendPacket st mp (Dest.str s) = .error "KeyError: unknown destination id" ∧
    sendData st byteData (Dest.str s) dataType =
      .error "KeyError: unknown destination id" := by
  have key : ∀ mp2 : MeshPacket, sendPacket st mp2 (Dest.str s) =
      .error "KeyError: unknown destination id" := by
    intro mp2
    simp [sendPacket, hs, habs]
  exact ⟨key mp, key _⟩

/-- Witness for `c8_unknown_destination_no_write`: destination
"unknownUser" against the freshly initialised (empty) registry. -/
theorem c8_unknown_destination_no_write_witness :
    ("unknownUser" ≠ BROADCAST_ADDR) ∧
    lookupA initMesh.nodes "unknownUser" = none ∧
    (sendPacket initMesh ⟨0, 0, ⟨none, none, none⟩⟩ (Dest.str "unknownUser") =
        .error "KeyError: unknown destination id" ∧
      sendData initMesh [104, 105] (Dest.str "unknownUser") DATA_OPAQUE =
        .error "KeyError: unknown destination id") :=
  ⟨by decide, rfl,
   c8_unknown_destination_no_write initMesh "unknownUser"
     ⟨0, 0, ⟨none, none, none⟩⟩ [104, 105] DATA_OPAQUE (by decide) rfl⟩

/-- C9: a received packet whose payload has none of the variants
position / user / data selects no topic (`None`); the publish then
raises (pubsub requires a string topic name), the exception propagates
out of `_handleFromRadio` into the reading loop's catch-all, and the
loop continues with the buffer reset and the interface state (hence
every observer-visible event log) unchanged — the packet is silently
dropped. -/
theorem c9_unroutable_packet_swallowed (m : MeshState) (p : MeshPacket)
    (r : ReaderState) (c : Nat)
    (decode : List Nat → Except String FromRadio)
    (hpos : p.payload.position = none)
    (huser : p.payload.user = none)
    (hdata : p.payload.data = none)
    (h4 : HEADER_LEN ≤ r.rxBuf.length)
    (hc : r.rxBuf.length + 1 = packetLen (r.rxBuf ++ [c]) + HEADER_LEN)
    (hdec : decode ((r.rxBuf ++ [c]).drop HEADER_LEN) =
      .ok (FromRadio.packet p)) :
    selectTopic p = none ∧
    handleFromRadio m (FromRadio.packet p) =
      .error "pub.sendMessage: topic name must be a string, got None" ∧
    linkStep decode ⟨r, m⟩ c = ⟨{ r with rxBuf := [] }, m⟩ := by
  have hsel : selectTopic p = none := by
    simp [selectTopic, hpos, huser, hdata]
  have herr : handleFromRadio m (FromRadio.packet p) =
      .error "pub.sendMessage: topic name must be a string, got None" := by
    simp only [handleFromRadio, handlePacketFromRadio, hsel, pubSendPacket]
  have hstep := readerStep_complete r c h4 hc
  refine ⟨hsel, herr, ?_⟩
  simp [linkStep, hstep, hdec, Except.bind, herr]

/-- Witness for `c9_unroutable_packet_swallowed` at the concrete frame
`94 C3 00 01 55` decoding to a packet with an empty payload record. -/
theorem c9_unroutable_packet_swallowed_witness :
    ((⟨1, 2, ⟨none, none, none⟩⟩ : MeshPacket).payload.position = none ∧
      HEADER_LEN ≤ (⟨[0x94, 0xc3, 0x00, 0x01], [], []⟩ : ReaderState).rxBuf.length) ∧
    (selectTopic ⟨1, 2, ⟨none, none, none⟩⟩ = none ∧
      handleFromRadio initMesh (FromRadio.packet ⟨1, 2, ⟨none, none, none⟩⟩) =
        .error "pub.sendMessage: topic name must be a string, got None" ∧
      linkStep (fun _ => .ok (FromRadio.packet ⟨1, 2, ⟨none, none, none⟩⟩))
          ⟨⟨[0x94, 0xc3, 0x00, 0x01], [], []⟩, initMesh⟩ 0x55 =
        ⟨⟨[], [], []⟩, initMesh⟩) :=
  ⟨⟨rfl, by decide⟩,
   c9_unroutable_packet_swallowed initMesh ⟨1, 2, ⟨none, none, none⟩⟩
     ⟨[0x94, 0xc3, 0x00, 0x01], [], []⟩ 0x55
     (fun _ => .ok (FromRadio.packet ⟨1, 2, ⟨none, none, none⟩⟩))
     rfl rfl rfl (by decide) (by decide) rfl⟩

/-- C10: the outbound writer frames every payload, with no size check:
the frame is always magic pair, then `(len >> 8) & 0xff` and
`len & 0xff`, then the payload itself (whatever its length, 512-bound
or not), and the 16-bit length field thus equals `len mod 2^16`. -/
theorem c10_no_outbound_bound_check (b : List Nat) :
    sendToRadioFrame b =
      [START1, START2, (b.length >>> 8) &&& 0xff, b.length &&& 0xff] ++ b ∧
    ((b.length >>> 8) &&& 0xff) * 256 + (b.length &&& 0xff) =
      b.length % 65536 ∧
    (sendToRadioFrame b).drop HEADER_LEN = b := by
  refine ⟨rfl, ?_, rfl⟩
  rw [Nat.and_pow_two_sub_one_eq_mod (b.length >>> 8) 8,
    Nat.and_pow_two_sub_one_eq_mod b.length 8,
    Nat.shiftRight_eq_div_pow]
  have h := (Nat.mod_mul :
    b.length % (256 * 256) = b.length % 256 + 256 * (b.length / 256 % 256))
  norm_num at h ⊢
  omega

end Meshtastic
